import Mathlib

/-!
Verification of the NFR-25 DAQ interface core (src/app.py) against its
specification.  The Python functions `load_dataframes`, `plot_data` and the
per-slot configuration loop of `main` are shallowly embedded below; pandas
decoding (`pd.read_csv` / `pd.read_excel`) is an external collaborator and is
passed in as a decoder parameter, while `pd.concat` and the Streamlit
`st.selectbox` widget are modelled from their documented library behaviour.
-/

namespace Daq

/-- A scalar cell value of a tabular dataset (numeric, text, or missing). -/
inductive Scalar where
  | num (v : Int)
  | str (s : String)
  | nan
deriving DecidableEq, Repr

/-- A decoded tabular dataset: an ordered sequence of named columns. -/
structure DataFrame where
  cols : List (String × List Scalar)
deriving DecidableEq, Repr

/-- The ordered column names of a dataset (pandas `df.columns`). -/
def DataFrame.columns (df : DataFrame) : List String := df.cols.map Prod.fst

/-- Column access `df[c]`: the values of column `c`, or `none` (KeyError). -/
def DataFrame.getCol (df : DataFrame) (c : String) : Option (List Scalar) :=
  (df.cols.find? (fun p => p.1 == c)).map Prod.snd

/-- The row count of a dataset (columns have uniform length within a dataset). -/
def DataFrame.nrows (df : DataFrame) : Nat :=
  match df.cols with
  | [] => 0
  | c :: _ => c.2.length

/-- One uploaded file as produced by the file uploader: a declared name and
raw content. -/
structure UploadedFile where
  name : String
  content : String
deriving DecidableEq, Repr

/-- The result of `load_dataframes`: the name-keyed mapping of decoded
datasets (a Python dict, i.e. an insertion-ordered association list) together
with the ordered list of `st.error` diagnostics emitted along the way. -/
structure LoadResult where
  dataframes : List (String × DataFrame)
  errors : List String
deriving DecidableEq, Repr

/-- Python dict assignment `d[k] = v`: replaces the value at an existing key
in place, otherwise appends the new binding at the end. -/
def dictInsert (d : List (String × DataFrame)) (k : String) (v : DataFrame) :
    List (String × DataFrame) :=
  if d.any (fun p => p.1 == k) then
    d.map (fun p => if p.1 == k then (k, v) else p)
  else d ++ [(k, v)]

/-- Python dict lookup `d[k]`, `none` meaning KeyError. -/
def dictGet (d : List (String × DataFrame)) (k : String) : Option DataFrame :=
  (d.find? (fun p => p.1 == k)).map Prod.snd

/-- A decoder for one tabular file format (`pd.read_csv` / `pd.read_excel`):
either a dataset or the message of the exception it raised. -/
def Decoder : Type := String → Except String DataFrame

/-- Python `str.endswith(pat)`: exact, case-sensitive suffix test on the
character sequence. -/
def pyEndsWith (s pat : String) : Bool :=
  pat.data.isSuffixOf s.data

/-- One iteration of the `load_dataframes` loop body: dispatch on the file
extension, decode, store the dataset or record the diagnostic.  The `try`
block surrounds the whole body, so a decoder exception becomes an
`Error loading` diagnostic and the loop continues. -/
def loadStep (rc re : Decoder) (acc : LoadResult) (f : UploadedFile) :
    LoadResult :=
  if pyEndsWith f.name ".csv" then
    match rc f.content with
    | .ok df => ⟨dictInsert acc.dataframes f.name df, acc.errors⟩
    | .error e => ⟨acc.dataframes, acc.errors ++ ["Error loading " ++ f.name ++ ": " ++ e]⟩
  else if pyEndsWith f.name ".xlsx" then
    match re f.content with
    | .ok df => ⟨dictInsert acc.dataframes f.name df, acc.errors⟩
    | .error e => ⟨acc.dataframes, acc.errors ++ ["Error loading " ++ f.name ++ ": " ++ e]⟩
  else
    ⟨acc.dataframes, acc.errors ++ ["Unsupported file type: " ++ f.name]⟩

/-- The `for uploaded_file in uploaded_files` loop of `load_dataframes`. -/
def loadLoop (rc re : Decoder) (acc : LoadResult) :
    List UploadedFile → LoadResult
  | [] => acc
  | f :: rest => loadLoop rc re (loadStep rc re acc f) rest

/-- `load_dataframes` of src/app.py: loads CSV and Excel files into datasets,
skipping unsupported types and isolating per-file failures. -/
def load_dataframes (rc re : Decoder) (uploaded_files : List UploadedFile) :
    LoadResult :=
  loadLoop rc re ⟨[], []⟩ uploaded_files

/-- Specification-side classification of a single file: the dataset it
decodes to, or `none` when it fails (unsupported extension or decode error). -/
def fileLoad (rc re : Decoder) (f : UploadedFile) : Option DataFrame :=
  if pyEndsWith f.name ".csv" then (rc f.content).toOption
  else if pyEndsWith f.name ".xlsx" then (re f.content).toOption
  else none

/-- Specification-side diagnostic of a single file: the single `st.error`
message the file produces, or `none` when it loads successfully. -/
def fileDiag (rc re : Decoder) (f : UploadedFile) : Option String :=
  if pyEndsWith f.name ".csv" then
    match rc f.content with
    | .ok _ => none
    | .error e => some ("Error loading " ++ f.name ++ ": " ++ e)
  else if pyEndsWith f.name ".xlsx" then
    match re f.content with
    | .ok _ => none
    | .error e => some ("Error loading " ++ f.name ++ ": " ++ e)
  else some ("Unsupported file type: " ++ f.name)

/-- Insert a column name at the end of the accumulator unless already
present (one step of building the union of column indexes). -/
def insertNew (a : List String) (c : String) : List String :=
  if a.contains c then a else a ++ [c]

/-- The column union of a list of datasets, in first-appearance order: the
columns `pd.concat` with the default outer join and `sort=False` gives the
concatenated frame. -/
def unionCols (dfs : List DataFrame) : List String :=
  dfs.foldl (fun acc df => df.columns.foldl insertNew acc) []

/-- Models pandas `pd.concat(objs, ignore_index=True)` (axis 0, outer join,
`sort=False`, frames with unique column labels): raises
`ValueError: No objects to concatenate` on an empty input, otherwise stacks
the frames with the union of columns in first-appearance order, filling
missing columns with NaN. -/
def pd_concat (dfs : List DataFrame) : Except String DataFrame :=
  if dfs.isEmpty then .error "No objects to concatenate"
  else
    .ok ⟨(unionCols dfs).map (fun c =>
      (c, dfs.flatMap (fun df =>
        (df.getCol c).getD (List.replicate df.nrows Scalar.nan))))⟩

/-- Lines 92-94 of `main`: combine all loaded datasets with `pd.concat` and
read off `combined_data.columns`, the global available-column catalog. -/
def catalogColumns (dataframes : List (String × DataFrame)) :
    Except String (List String) :=
  match pd_concat (dataframes.map Prod.snd) with
  | .error e => .error e
  | .ok df => .ok df.columns

/-- The part of `main` that runs when files were uploaded, up to the catalog:
load the files, then `pd.concat` the loaded mapping's values.  An `.error`
result is an exception escaping `main`. -/
def mainCatalog (rc re : Decoder) (uploaded_files : List UploadedFile) :
    Except String (List String) :=
  catalogColumns (load_dataframes rc re uploaded_files).dataframes

/-- Modelled from the spec: the set-union of column names across all
datasets, preserving first-seen order, duplicates collapsed (the
CatalogBuilder contract, stated directly as first-occurrence
deduplication of the concatenated column lists). -/
def dedupFirstSeen : List String → List String
  | [] => []
  | c :: rest => c :: dedupFirstSeen (rest.filter (fun d => d ≠ c))
termination_by l => l.length
decreasing_by
  simp only [List.length_cons]
  exact Nat.lt_succ_of_le (List.length_filter_le _ _)

/-- One plotly trace: `go.Scatter(x=..., y=..., mode=...)`.  The value
sequences are kept in source row order (plotly does not sort). -/
structure Trace where
  x : List Scalar
  y : List Scalar
  mode : String
deriving DecidableEq, Repr

/-- The layout fields `plot_data` touches via `fig.update_layout`; `none`
means the field was left at the plotly default. -/
structure Layout where
  title : Option String
  xaxis_title : Option String
  yaxis_title : Option String
  plot_bgcolor : Option String
  paper_bgcolor : Option String
  font_color : Option String
  xaxis_gridcolor : Option String
  xaxis_zerolinecolor : Option String
  yaxis_gridcolor : Option String
  yaxis_zerolinecolor : Option String
deriving DecidableEq, Repr

/-- A plotly figure: traces plus layout. -/
structure Figure where
  data : List Trace
  layout : Layout
deriving DecidableEq, Repr

/-- The layout of a bare `go.Figure()`: every field at its default. -/
def emptyLayout : Layout :=
  ⟨none, none, none, none, none, none, none, none, none, none⟩

/-- The `fig.update_layout(...)` call of `plot_data`: title, axis titles and
the fixed dark theme (backgrounds #111111, font #FFFFFF, grid #4a4a4a). -/
def darkLayout (plot_title x_axis y_axis : String) : Layout :=
  ⟨some plot_title, some x_axis, some y_axis,
   some "#111111", some "#111111", some "#FFFFFF",
   some "#4a4a4a", some "#4a4a4a", some "#4a4a4a", some "#4a4a4a"⟩

/-- `plot_data` of src/app.py.  The result pairs the returned figure with
the list of `st.error` diagnostics emitted during the call; an `.error`
result is a raised exception (KeyError on a missing column). -/
def plot_data (data : DataFrame) (x_axis y_axis plot_title plot_type : String) :
    Except String (Figure × List String) :=
  if plot_type = "Line Plot" then
    match data.getCol x_axis, data.getCol y_axis with
    | some xs, some ys =>
        .ok (⟨[⟨xs, ys, "lines"⟩], darkLayout plot_title x_axis y_axis⟩, [])
    | _, _ => .error "KeyError"
  else if plot_type = "Scatter Plot" then
    match data.getCol x_axis, data.getCol y_axis with
    | some xs, some ys =>
        .ok (⟨[⟨xs, ys, "markers"⟩], darkLayout plot_title x_axis y_axis⟩, [])
    | _, _ => .error "KeyError"
  else
    .ok (⟨[], emptyLayout⟩, ["Unsupported plot type: " ++ plot_type])

/-- One plot slot's configuration dict as assembled in the `main` loop
(lines 121-134 of src/app.py). -/
structure PlotConfig where
  file_name : String
  x_axis : String
  y_axis : String
  plot_type : String
  df : DataFrame
  title : String
deriving DecidableEq, Repr

/-- The derived plot title `f"{file_name} - {y_axis} vs {x_axis}"`. -/
def computeTitle (file_name y_axis x_axis : String) : String :=
  file_name ++ " - " ++ y_axis ++ " vs " ++ x_axis

/-- The body of the per-slot configuration loop of `main`: each
`st.selectbox` is modelled as a selection function from the offered options
(source from the loaded file names, X and Y from the chosen source's own
columns, plot type from the two modes); `none` is a KeyError on the source
lookup. -/
def buildPlotConfig (selSource selX selY selType : List String → String)
    (dataframes : List (String × DataFrame)) : Option PlotConfig :=
  let file_name := selSource (dataframes.map Prod.fst)
  match dictGet dataframes file_name with
  | none => none
  | some df =>
      let x_axis := selX df.columns
      let y_axis := selY df.columns
      let plot_type := selType ["Line Plot", "Scatter Plot"]
      some ⟨file_name, x_axis, y_axis, plot_type, df,
            computeTitle file_name y_axis x_axis⟩

/-! ## Helper lemmas about the loader -/

theorem dictInsert_fresh (d : List (String × DataFrame)) (k : String)
    (v : DataFrame) (h : ∀ p ∈ d, p.1 ≠ k) :
    dictInsert d k v = d ++ [(k, v)] := by
  have ha : d.any (fun p => p.1 == k) = false := by
    rw [List.any_eq_false]
    intro p hp
    simp only [beq_iff_eq]
    exact h p hp
  simp [dictInsert, ha]

theorem loadLoop_eq (rc re : Decoder) (files : List UploadedFile) :
    ∀ acc : LoadResult,
      (files.map UploadedFile.name).Nodup →
      (∀ f ∈ files, ∀ p ∈ acc.dataframes, p.1 ≠ f.name) →
      loadLoop rc re acc files =
        ⟨acc.dataframes ++
            files.filterMap (fun f => (fileLoad rc re f).map (fun df => (f.name, df))),
          acc.errors ++ files.filterMap (fileDiag rc re)⟩ := by
  induction files with
  | nil =>
      intro acc _ _
      simp [loadLoop]
  | cons f rest ih =>
      intro acc hnodup hfresh
      rw [List.map_cons, List.nodup_cons] at hnodup
      obtain ⟨hf, hrest⟩ := hnodup
      have hfreshf : ∀ p ∈ acc.dataframes, p.1 ≠ f.name :=
        hfresh f (List.mem_cons_self f rest)
      have hne : ∀ g ∈ rest, f.name ≠ g.name := by
        intro g hg heq
        exact hf (heq ▸ List.mem_map_of_mem UploadedFile.name hg)
      have hfreshT : ∀ g ∈ rest, ∀ p ∈ acc.dataframes, p.1 ≠ g.name :=
        fun g hg => hfresh g (List.mem_cons_of_mem f hg)
      rw [loadLoop]
      by_cases hcsv : pyEndsWith f.name ".csv" = true
      · cases hrc : rc f.content with
        | ok df =>
            have hload : fileLoad rc re f = some df := by
              simp [fileLoad, hcsv, hrc, Except.toOption]
            have hdiag : fileDiag rc re f = none := by
              simp [fileDiag, hcsv, hrc]
            have hstep : loadStep rc re acc f =
                ⟨acc.dataframes ++ [(f.name, df)], acc.errors⟩ := by
              simp [loadStep, hcsv, hrc, dictInsert_fresh _ _ _ hfreshf]
            have hfresh' : ∀ g ∈ rest,
                ∀ p ∈ acc.dataframes ++ [(f.name, df)], p.1 ≠ g.name := by
              intro g hg p hp
              rcases List.mem_append.1 hp with h1 | h1
              · exact hfreshT g hg p h1
              · rw [List.mem_singleton.1 h1]
                exact hne g hg
            rw [hstep,
              ih ⟨acc.dataframes ++ [(f.name, df)], acc.errors⟩ hrest hfresh']
            simp [List.filterMap_cons, hload, hdiag, List.append_assoc]
        | error e =>
            have hload : fileLoad rc re f = none := by
              simp [fileLoad, hcsv, hrc, Except.toOption]
            have hdiag : fileDiag rc re f =
                some ("Error loading " ++ f.name ++ ": " ++ e) := by
              simp [fileDiag, hcsv, hrc]
            have hstep : loadStep rc re acc f =
                ⟨acc.dataframes,
                  acc.errors ++ ["Error loading " ++ f.name ++ ": " ++ e]⟩ := by
              simp [loadStep, hcsv, hrc]
            rw [hstep,
              ih ⟨acc.dataframes,
                acc.errors ++ ["Error loading " ++ f.name ++ ": " ++ e]⟩
                hrest hfreshT]
            simp [List.filterMap_cons, hload, hdiag, List.append_assoc]
      · by_cases hxlsx : pyEndsWith f.name ".xlsx" = true
        · cases hre : re f.content with
          | ok df =>
              have hload : fileLoad rc re f = some df := by
                simp [fileLoad, hcsv, hxlsx, hre, Except.toOption]
              have hdiag : fileDiag rc re f = none := by
                simp [fileDiag, hcsv, hxlsx, hre]
              have hstep : loadStep rc re acc f =
                  ⟨acc.dataframes ++ [(f.name, df)], acc.errors⟩ := by
                simp [loadStep, hcsv, hxlsx, hre, dictInsert_fresh _ _ _ hfreshf]
              have hfresh' : ∀ g ∈ rest,
                  ∀ p ∈ acc.dataframes ++ [(f.name, df)], p.1 ≠ g.name := by
                intro g hg p hp
                rcases List.mem_append.1 hp with h1 | h1
                · exact hfreshT g hg p h1
                · rw [List.mem_singleton.1 h1]
                  exact hne g hg
              rw [hstep,
                ih ⟨acc.dataframes ++ [(f.name, df)], acc.errors⟩ hrest hfresh']
              simp [List.filterMap_cons, hload, hdiag, List.append_assoc]
          | error e =>
              have hload : fileLoad rc re f = none := by
                simp [fileLoad, hcsv, hxlsx, hre, Except.toOption]
              have hdiag : fileDiag rc re f =
                  some ("Error loading " ++ f.name ++ ": " ++ e) := by
                simp [fileDiag, hcsv, hxlsx, hre]
              have hstep : loadStep rc re acc f =
                  ⟨acc.dataframes,
                    acc.errors ++ ["Error loading " ++ f.name ++ ": " ++ e]⟩ := by
                simp [loadStep, hcsv, hxlsx, hre]
              rw [hstep,
                ih ⟨acc.dataframes,
                  acc.errors ++ ["Error loading " ++ f.name ++ ": " ++ e]⟩
                  hrest hfreshT]
              simp [List.filterMap_cons, hload, hdiag, List.append_assoc]
        · have hload : fileLoad rc re f = none := by
            simp [fileLoad, hcsv, hxlsx]
          have hdiag : fileDiag rc re f =
              some ("Unsupported file type: " ++ f.name) := by
            simp [fileDiag, hcsv, hxlsx]
          have hstep : loadStep rc re acc f =
              ⟨acc.dataframes,
                acc.errors ++ ["Unsupported file type: " ++ f.name]⟩ := by
            simp [loadStep, hcsv, hxlsx]
          rw [hstep,
            ih ⟨acc.dataframes,
              acc.errors ++ ["Unsupported file type: " ++ f.name]⟩
              hrest hfreshT]
          simp [List.filterMap_cons, hload, hdiag, List.append_assoc]

/-! ## Concrete fixtures used by the witnesses -/

/-- A small dataset with columns `t`, `v1` (5 rows each). -/
def dfT : DataFrame :=
  ⟨[("t", [.num 0, .num 1, .num 2, .num 3, .num 4]),
    ("v1", [.num 5, .num 6, .num 7, .num 8, .num 9])]⟩

/-- A small dataset with columns `t`, `v2`. -/
def dfX : DataFrame :=
  ⟨[("t", [.num 0, .num 1]), ("v2", [.num 10, .num 20])]⟩

/-- A concrete CSV decoder: `"ok"` decodes to `dfT`, `"ok2"` to `dfX`,
anything else raises a parser error. -/
def rcW : Decoder := fun s =>
  if s = "ok" then .ok dfT
  else if s = "ok2" then .ok dfX
  else .error "ParserError"

/-- A concrete Excel decoder: `"ok"` decodes to `dfX`, anything else raises. -/
def reW : Decoder := fun s =>
  if s = "ok" then .ok dfX else .error "BadZipFile"

/-- A concrete batch of uploads: two good files, one malformed CSV, one
unsupported extension. -/
def filesW : List UploadedFile :=
  [⟨"a.csv", "ok"⟩, ⟨"bad.csv", "1,2,"⟩, ⟨"notes.txt", "hello"⟩,
   ⟨"b.xlsx", "ok"⟩]

/-! ## Helper lemmas about the catalog -/

theorem mem_dedupFirstSeen (x : String) :
    ∀ l : List String, x ∈ dedupFirstSeen l ↔ x ∈ l := by
  intro l
  induction l using dedupFirstSeen.induct with
  | case1 => rw [dedupFirstSeen]
  | case2 c rest ih =>
      rw [dedupFirstSeen]
      simp only [List.mem_cons, ih, List.mem_filter, decide_eq_true_eq]
      constructor
      · rintro (rfl | h)
        · exact Or.inl rfl
        · exact Or.inr h.1
      · rintro (rfl | h)
        · exact Or.inl rfl
        · by_cases hx : x = c
          · exact Or.inl hx
          · exact Or.inr ⟨h, hx⟩

theorem nodup_dedupFirstSeen :
    ∀ l : List String, (dedupFirstSeen l).Nodup := by
  intro l
  induction l using dedupFirstSeen.induct with
  | case1 => rw [dedupFirstSeen]; exact List.nodup_nil
  | case2 c rest ih =>
      rw [dedupFirstSeen]
      refine List.nodup_cons.2 ⟨?_, ih⟩
      intro hc
      have h := (mem_dedupFirstSeen c _).1 hc
      rw [List.mem_filter] at h
      simpa using h.2

theorem dedupFirstSeen_eq_self :
    ∀ l : List String, l.Nodup → dedupFirstSeen l = l := by
  intro l
  induction l using dedupFirstSeen.induct with
  | case1 => intro _; rw [dedupFirstSeen]
  | case2 c rest ih =>
      intro h
      rw [List.nodup_cons] at h
      have hf : rest.filter (fun d => d ≠ c) = rest := by
        rw [List.filter_eq_self]
        intro d hd
        simp only [decide_eq_true_eq]
        intro heq
        exact h.1 (heq ▸ hd)
      rw [dedupFirstSeen, hf]
      rw [hf] at ih
      rw [ih h.2]

theorem foldl_insertNew :
    ∀ (l : List String) (acc : List String),
      l.foldl insertNew acc =
        acc ++ dedupFirstSeen (l.filter (fun c => !(acc.contains c))) := by
  intro l
  induction l with
  | nil => intro acc; simp [dedupFirstSeen]
  | cons c rest ih =>
      intro acc
      rw [List.foldl_cons, List.filter_cons]
      by_cases hmem : c ∈ acc
      · have h1 : insertNew acc c = acc := by simp [insertNew, hmem]
        rw [h1, ih acc]
        simp [hmem]
      · have h1 : insertNew acc c = acc ++ [c] := by simp [insertNew, hmem]
        rw [h1, ih (acc ++ [c])]
        rw [if_pos (by simp [hmem])]
        rw [dedupFirstSeen]
        have hfe : rest.filter (fun d => !((acc ++ [c]).contains d)) =
            (rest.filter (fun d => !(acc.contains d))).filter
              (fun d => d ≠ c) := by
          rw [List.filter_filter]
          apply List.filter_congr
          intro d _
          by_cases hdc : d = c
          · subst hdc
            simp
          · by_cases hda : d ∈ acc <;> simp [hdc, hda]
        rw [hfe]
        simp [List.append_assoc]

theorem unionCols_eq_dedup (dfs : List DataFrame) :
    unionCols dfs = dedupFirstSeen (dfs.flatMap DataFrame.columns) := by
  have h1 : unionCols dfs =
      (dfs.map DataFrame.columns).flatten.foldl insertNew [] := by
    rw [unionCols, List.foldl_flatten]
    rw [List.foldl_map]
  rw [h1, List.flatMap_def, foldl_insertNew]
  simp [Function.comp_def, List.filter_true]

/-! ## Helper lemmas about dictionaries and columns -/

theorem dictGet_mem (d : List (String × DataFrame)) (k : String)
    (h : k ∈ d.map Prod.fst) :
    ∃ df, dictGet d k = some df ∧ (k, df) ∈ d := by
  induction d with
  | nil => cases h
  | cons p rest ih =>
      by_cases hk : p.1 = k
      · refine ⟨p.2, ?_, ?_⟩
        · rw [dictGet, List.find?_cons_of_pos _ (by simp [hk])]
          rfl
        · rw [← hk]
          exact List.mem_cons_self _ _
      · rw [List.map_cons, List.mem_cons] at h
        rcases h with h | h
        · exact absurd h.symm hk
        · obtain ⟨df, hget, hmem⟩ := ih h
          refine ⟨df, ?_, List.mem_cons_of_mem _ hmem⟩
          rw [dictGet, List.find?_cons_of_neg _ (by simp [hk])]
          exact hget

theorem getCol_of_mem_columns (df : DataFrame) (c : String)
    (h : c ∈ df.columns) : ∃ vs, df.getCol c = some vs := by
  rw [DataFrame.columns] at h
  obtain ⟨p, hp, rfl⟩ := List.mem_map.1 h
  have hs : (df.cols.find? (fun q => q.1 == p.1)).isSome = true := by
    rw [List.find?_isSome]
    exact ⟨p, hp, by simp⟩
  obtain ⟨q, hq⟩ := Option.isSome_iff_exists.1 hs
  refine ⟨q.2, ?_⟩
  rw [DataFrame.getCol, hq]
  rfl

/-! ## Claim theorems: FileLoader -/

/-- C1: for every input sequence of uniquely-named uploaded files,
`load_dataframes` returns a mapping containing exactly the files with a
recognized extension whose content decoded successfully, keyed by file name
in insertion order of the successful loads; every malformed or unrecognized
file is excluded and produces exactly one diagnostic naming that file, and
the mapping is empty (not an error) when every file fails. -/
theorem load_dataframes_correct (rc re : Decoder) (files : List UploadedFile)
    (hnames : (files.map UploadedFile.name).Nodup) :
    (load_dataframes rc re files).dataframes =
        files.filterMap
          (fun f => (fileLoad rc re f).map (fun df => (f.name, df))) ∧
    (load_dataframes rc re files).errors =
        files.filterMap (fileDiag rc re) ∧
    ((∀ f ∈ files, fileLoad rc re f = none) →
        (load_dataframes rc re files).dataframes = []) ∧
    (∀ f ∈ files, fileLoad rc re f = none →
        fileDiag rc re f = some ("Unsupported file type: " ++ f.name) ∨
        ∃ e, fileDiag rc re f =
          some ("Error loading " ++ f.name ++ ": " ++ e)) := by
  have h := loadLoop_eq rc re files ⟨[], []⟩ hnames (by intro f _ p hp; cases hp)
  rw [load_dataframes, h]
  refine ⟨by simp, by simp, ?_, ?_⟩
  · intro hall
    simp only [List.nil_append]
    rw [List.filterMap_eq_nil_iff]
    intro f hf
    rw [hall f hf]
    rfl
  · intro f _ hnone
    rw [fileLoad] at hnone
    rw [fileDiag]
    by_cases hcsv : pyEndsWith f.name ".csv" = true
    · rw [if_pos hcsv] at hnone ⊢
      cases hrc : rc f.content with
      | ok df => rw [hrc] at hnone; cases hnone
      | error e => exact Or.inr ⟨e, rfl⟩
    · rw [if_neg hcsv] at hnone ⊢
      by_cases hxlsx : pyEndsWith f.name ".xlsx" = true
      · rw [if_pos hxlsx] at hnone ⊢
        cases hre : re f.content with
        | ok df => rw [hre] at hnone; cases hnone
        | error e => exact Or.inr ⟨e, rfl⟩
      · rw [if_neg hxlsx]
        exact Or.inl rfl

/-- Witness for C1 at a concrete batch: `a.csv` and `b.xlsx` decode, the
malformed `bad.csv` and the unsupported `notes.txt` each yield one
diagnostic. -/
theorem load_dataframes_correct_witness :
    (filesW.map UploadedFile.name).Nodup ∧
    ((load_dataframes rcW reW filesW).dataframes =
        filesW.filterMap
          (fun f => (fileLoad rcW reW f).map (fun df => (f.name, df))) ∧
     (load_dataframes rcW reW filesW).errors =
        filesW.filterMap (fileDiag rcW reW) ∧
     ((∀ f ∈ filesW, fileLoad rcW reW f = none) →
        (load_dataframes rcW reW filesW).dataframes = []) ∧
     (∀ f ∈ filesW, fileLoad rcW reW f = none →
        fileDiag rcW reW f = some ("Unsupported file type: " ++ f.name) ∨
        ∃ e, fileDiag rcW reW f =
          some ("Error loading " ++ f.name ++ ": " ++ e))) :=
  ⟨by decide, load_dataframes_correct rcW reW filesW (by decide)⟩

/-- C9: when two uploaded files share the same declared name and both decode
successfully, the later file's dataset silently overwrites the earlier one
(last-write-wins), no diagnostic is emitted, and the mapping has one entry
for the two successfully decoded files. -/
theorem load_dataframes_duplicate_name (rc re : Decoder)
    (f1 f2 : UploadedFile) (hname : f1.name = f2.name)
    (hcsv : pyEndsWith f2.name ".csv" = true) (df1 df2 : DataFrame)
    (h1 : rc f1.content = .ok df1) (h2 : rc f2.content = .ok df2) :
    load_dataframes rc re [f1, f2] = ⟨[(f2.name, df2)], []⟩ ∧
    (load_dataframes rc re [f1, f2]).dataframes.length = 1 := by
  have hcsv1 : pyEndsWith f1.name ".csv" = true := by rw [hname]; exact hcsv
  have hmain : load_dataframes rc re [f1, f2] = ⟨[(f2.name, df2)], []⟩ := by
    rw [load_dataframes, loadLoop, loadLoop, loadLoop]
    have s1 : loadStep rc re ⟨[], []⟩ f1 = ⟨[(f1.name, df1)], []⟩ := by
      simp [loadStep, hcsv1, h1, dictInsert]
    rw [s1]
    simp [loadStep, hcsv, h2, dictInsert, hname]
  exact ⟨hmain, by rw [hmain]; rfl⟩

/-- Witness for C9: two distinct CSV files both named `a.csv`; the mapping
keeps only the second one's dataset and no error is reported. -/
theorem load_dataframes_duplicate_name_witness :
    (⟨"a.csv", "ok"⟩ : UploadedFile).name =
        (⟨"a.csv", "ok2"⟩ : UploadedFile).name ∧
    pyEndsWith (⟨"a.csv", "ok2"⟩ : UploadedFile).name ".csv" = true ∧
    rcW (⟨"a.csv", "ok"⟩ : UploadedFile).content = .ok dfT ∧
    rcW (⟨"a.csv", "ok2"⟩ : UploadedFile).content = .ok dfX ∧
    (load_dataframes rcW reW [⟨"a.csv", "ok"⟩, ⟨"a.csv", "ok2"⟩] =
        ⟨[("a.csv", dfX)], []⟩ ∧
     (load_dataframes rcW reW
        [⟨"a.csv", "ok"⟩, ⟨"a.csv", "ok2"⟩]).dataframes.length = 1) :=
  ⟨by decide, by decide, rfl, rfl,
   load_dataframes_duplicate_name rcW reW _ _ (by decide) (by decide) dfT dfX
     rfl rfl⟩

/-- C10: extension recognition is an exact case-sensitive suffix match
against `.csv` and `.xlsx`: a file whose name ends with neither lowercase
string is excluded from the mapping (the loop body leaves the mapping
untouched) and reported with exactly one unsupported-type diagnostic. -/
theorem loadStep_unrecognized_extension (rc re : Decoder) (acc : LoadResult)
    (f : UploadedFile) (h1 : pyEndsWith f.name ".csv" = false)
    (h2 : pyEndsWith f.name ".xlsx" = false) :
    loadStep rc re acc f =
      ⟨acc.dataframes, acc.errors ++ ["Unsupported file type: " ++ f.name]⟩ ∧
    fileLoad rc re f = none := by
  constructor
  · simp [loadStep, h1, h2]
  · simp [fileLoad, h1, h2]

/-- Witness for C10 at the two concrete names of the claim: `DATA.CSV`
(wrong case) and `data.xls` (wrong extension) are both rejected. -/
theorem loadStep_unrecognized_extension_witness :
    (pyEndsWith "DATA.CSV" ".csv" = false ∧
     pyEndsWith "DATA.CSV" ".xlsx" = false ∧
     pyEndsWith "data.xls" ".csv" = false ∧
     pyEndsWith "data.xls" ".xlsx" = false) ∧
    (loadStep rcW reW ⟨[], []⟩ ⟨"DATA.CSV", "ok"⟩ =
        ⟨[], ["Unsupported file type: DATA.CSV"]⟩ ∧
     fileLoad rcW reW ⟨"DATA.CSV", "ok"⟩ = none) ∧
    (loadStep rcW reW ⟨[], []⟩ ⟨"data.xls", "ok"⟩ =
        ⟨[], ["Unsupported file type: data.xls"]⟩ ∧
     fileLoad rcW reW ⟨"data.xls", "ok"⟩ = none) :=
  ⟨⟨by decide, by decide, by decide, by decide⟩,
   loadStep_unrecognized_extension rcW reW ⟨[], []⟩ ⟨"DATA.CSV", "ok"⟩
     (by decide) (by decide),
   loadStep_unrecognized_extension rcW reW ⟨[], []⟩ ⟨"data.xls", "ok"⟩
     (by decide) (by decide)⟩

/-- C2 (code bug): when files were uploaded but none loads successfully,
`main` does not reach a "no usable data" state — `pd.concat` is applied to
the empty mapping's values and raises `ValueError: No objects to
concatenate`, an uncaught exception. -/
theorem mainCatalog_crashes_when_no_dataset_loads (rc re : Decoder)
    (files : List UploadedFile)
    (hnames : (files.map UploadedFile.name).Nodup)
    (hall : ∀ f ∈ files, fileLoad rc re f = none) :
    mainCatalog rc re files = .error "No objects to concatenate" := by
  have h := loadLoop_eq rc re files ⟨[], []⟩ hnames (by intro f _ p hp; cases hp)
  have hempty : (load_dataframes rc re files).dataframes = [] := by
    rw [load_dataframes, h]
    simp only [List.nil_append]
    rw [List.filterMap_eq_nil_iff]
    intro f hf
    rw [hall f hf]
    rfl
  rw [mainCatalog, hempty]
  rfl

/-- Witness for C2: uploading the single unsupported file `data.txt` makes
the loaded mapping empty and the catalog step raise. -/
theorem mainCatalog_crashes_witness :
    (([(⟨"data.txt", "hello"⟩ : UploadedFile)].map UploadedFile.name).Nodup ∧
     ∀ f ∈ [(⟨"data.txt", "hello"⟩ : UploadedFile)],
        fileLoad rcW reW f = none) ∧
    mainCatalog rcW reW [⟨"data.txt", "hello"⟩] =
      .error "No objects to concatenate" :=
  ⟨⟨by decide, by decide⟩,
   mainCatalog_crashes_when_no_dataset_loads rcW reW _ (by decide) (by decide)⟩

/-! ## Claim theorems: CatalogBuilder -/

/-- C6: for every non-empty mapping of loaded datasets the catalog is the
set-union of column names across all datasets in first-seen order with
duplicates collapsed, and re-running the union on its own output yields it
unchanged (idempotent). -/
theorem catalog_first_seen_union (dataframes : List (String × DataFrame))
    (hne : dataframes ≠ []) :
    catalogColumns dataframes =
        .ok (dedupFirstSeen
          ((dataframes.map Prod.snd).flatMap DataFrame.columns)) ∧
    ∀ u, catalogColumns dataframes = .ok u →
      u.Nodup ∧
      (∀ c, c ∈ u ↔ ∃ p ∈ dataframes, c ∈ p.2.columns) ∧
      dedupFirstSeen u = u := by
  have hmap : (dataframes.map Prod.snd).isEmpty = false := by
    cases dataframes
    · exact absurd rfl hne
    · rfl
  have hcat : catalogColumns dataframes =
      .ok (unionCols (dataframes.map Prod.snd)) := by
    rw [catalogColumns, pd_concat, if_neg]
    · simp [DataFrame.columns, List.map_map, Function.comp_def]
    · rw [hmap]
      exact Bool.false_ne_true
  refine ⟨by rw [hcat, unionCols_eq_dedup], ?_⟩
  intro u hu
  rw [hcat, Except.ok.injEq] at hu
  subst hu
  rw [unionCols_eq_dedup]
  refine ⟨nodup_dedupFirstSeen _, ?_,
    dedupFirstSeen_eq_self _ (nodup_dedupFirstSeen _)⟩
  intro c
  rw [mem_dedupFirstSeen]
  simp only [List.mem_flatMap, List.mem_map]
  constructor
  · rintro ⟨df, ⟨p, hp, rfl⟩, hc⟩
    exact ⟨p, hp, hc⟩
  · rintro ⟨p, hp, hc⟩
    exact ⟨p.2, ⟨p, hp, rfl⟩, hc⟩

/-- Witness for C6 on two concrete datasets sharing column `t`: the catalog
is `[t, v1, v2]`. -/
theorem catalog_first_seen_union_witness :
    ([("a.csv", dfT), ("b.xlsx", dfX)] : List (String × DataFrame)) ≠ [] ∧
    (catalogColumns [("a.csv", dfT), ("b.xlsx", dfX)] =
        .ok (dedupFirstSeen
          ((([("a.csv", dfT), ("b.xlsx", dfX)] :
              List (String × DataFrame)).map Prod.snd).flatMap
            DataFrame.columns)) ∧
     ∀ u, catalogColumns [("a.csv", dfT), ("b.xlsx", dfX)] = .ok u →
        u.Nodup ∧
        (∀ c, c ∈ u ↔ ∃ p ∈ ([("a.csv", dfT), ("b.xlsx", dfX)] :
            List (String × DataFrame)), c ∈ p.2.columns) ∧
        dedupFirstSeen u = u) :=
  ⟨by decide, catalog_first_seen_union _ (by decide)⟩

/-! ## Selection functions used by the configuration witnesses -/

/-- A selection that always picks the first offered option (the selectbox
default). -/
def headSel : List String → String := fun opts => opts.headD ""

/-- A selection that picks the second offered option when present, else the
first. -/
def secondSel : List String → String :=
  fun opts => (opts.drop 1).headD (opts.headD "")

theorem headSel_mem : ∀ opts : List String, opts ≠ [] → headSel opts ∈ opts := by
  intro opts h
  cases opts with
  | nil => exact absurd rfl h
  | cons a rest => exact List.mem_cons_self _ _

theorem secondSel_mem :
    ∀ opts : List String, opts ≠ [] → secondSel opts ∈ opts := by
  intro opts h
  cases opts with
  | nil => exact absurd rfl h
  | cons a rest =>
      cases rest with
      | nil => exact List.mem_cons_self _ _
      | cons b rest2 => exact List.mem_cons_of_mem _ (List.mem_cons_self _ _)

/-! ## Claim theorems: PlotConfigStore -/

/-- C3: every plot configuration the `main` loop assembles draws its X and Y
columns from the column set of its just-chosen source dataset (the selectbox
options are exactly the new source's columns), so the later render never
targets a column missing from its source: `plot_data` succeeds without
diagnostics.  Each selectbox is assumed to return one of its offered
options, the loaded mapping is non-empty and every dataset has at least one
column. -/
theorem plot_config_columns_valid
    (selSource selX selY selType : List String → String)
    (dataframes : List (String × DataFrame))
    (hS : ∀ opts, opts ≠ [] → selSource opts ∈ opts)
    (hX : ∀ opts, opts ≠ [] → selX opts ∈ opts)
    (hY : ∀ opts, opts ≠ [] → selY opts ∈ opts)
    (hT : ∀ opts, opts ≠ [] → selType opts ∈ opts)
    (hne : dataframes ≠ [])
    (hcols : ∀ p ∈ dataframes, p.2.columns ≠ []) :
    ∃ cfg, buildPlotConfig selSource selX selY selType dataframes = some cfg ∧
      dictGet dataframes cfg.file_name = some cfg.df ∧
      cfg.x_axis ∈ cfg.df.columns ∧ cfg.y_axis ∈ cfg.df.columns ∧
      ∃ fig, plot_data cfg.df cfg.x_axis cfg.y_axis cfg.title cfg.plot_type =
        .ok (fig, []) := by
  have hmapne : dataframes.map Prod.fst ≠ [] := by
    intro h
    exact hne (List.map_eq_nil_iff.1 h)
  have hsrc : selSource (dataframes.map Prod.fst) ∈ dataframes.map Prod.fst :=
    hS _ hmapne
  obtain ⟨df, hget, hmem⟩ := dictGet_mem _ _ hsrc
  have hcne : df.columns ≠ [] := hcols _ hmem
  have hx : selX df.columns ∈ df.columns := hX _ hcne
  have hy : selY df.columns ∈ df.columns := hY _ hcne
  have ht : selType ["Line Plot", "Scatter Plot"] ∈
      (["Line Plot", "Scatter Plot"] : List String) :=
    hT _ (by simp)
  obtain ⟨xs, hxs⟩ := getCol_of_mem_columns df _ hx
  obtain ⟨ys, hys⟩ := getCol_of_mem_columns df _ hy
  refine ⟨⟨selSource (dataframes.map Prod.fst), selX df.columns,
    selY df.columns, selType ["Line Plot", "Scatter Plot"], df,
    computeTitle (selSource (dataframes.map Prod.fst)) (selY df.columns)
      (selX df.columns)⟩, ?_, hget, hx, hy, ?_⟩
  · rw [buildPlotConfig]
    simp only [hget]
  · show ∃ fig, plot_data df (selX df.columns) (selY df.columns)
        (computeTitle (selSource (dataframes.map Prod.fst)) (selY df.columns)
          (selX df.columns))
        (selType ["Line Plot", "Scatter Plot"]) = .ok (fig, [])
    rw [List.mem_cons, List.mem_cons] at ht
    rcases ht with h | h | h
    · refine ⟨⟨[⟨xs, ys, "lines"⟩],
        darkLayout (computeTitle (selSource (dataframes.map Prod.fst))
            (selY df.columns) (selX df.columns))
          (selX df.columns) (selY df.columns)⟩, ?_⟩
      rw [h, plot_data, if_pos rfl, hxs, hys]
    · refine ⟨⟨[⟨xs, ys, "markers"⟩],
        darkLayout (computeTitle (selSource (dataframes.map Prod.fst))
            (selY df.columns) (selX df.columns))
          (selX df.columns) (selY df.columns)⟩, ?_⟩
      rw [h, plot_data, if_neg (by decide), if_pos rfl, hxs, hys]
    · cases h

/-- Witness for C3 with first-option selectors over two concrete datasets. -/
theorem plot_config_columns_valid_witness :
    (∀ opts : List String, opts ≠ [] → headSel opts ∈ opts) ∧
    (∀ opts : List String, opts ≠ [] → secondSel opts ∈ opts) ∧
    ([("a.csv", dfT), ("b.xlsx", dfX)] : List (String × DataFrame)) ≠ [] ∧
    (∀ p ∈ ([("a.csv", dfT), ("b.xlsx", dfX)] : List (String × DataFrame)),
        p.2.columns ≠ []) ∧
    ∃ cfg, buildPlotConfig headSel headSel secondSel headSel
        [("a.csv", dfT), ("b.xlsx", dfX)] = some cfg ∧
      dictGet [("a.csv", dfT), ("b.xlsx", dfX)] cfg.file_name = some cfg.df ∧
      cfg.x_axis ∈ cfg.df.columns ∧ cfg.y_axis ∈ cfg.df.columns ∧
      ∃ fig, plot_data cfg.df cfg.x_axis cfg.y_axis cfg.title cfg.plot_type =
        .ok (fig, []) :=
  ⟨headSel_mem, secondSel_mem, by decide, by decide,
   plot_config_columns_valid headSel headSel secondSel headSel _
     headSel_mem headSel_mem secondSel_mem headSel_mem
     (by decide) (by decide)⟩

/-- C7: the title of every assembled plot configuration is the derived
string `"{source} - {y_column} vs {x_column}"` over the configuration's own
current fields — it is a function of those three fields, not independently
settable. -/
theorem plot_config_title (selSource selX selY selType : List String → String)
    (dataframes : List (String × DataFrame)) (cfg : PlotConfig)
    (h : buildPlotConfig selSource selX selY selType dataframes = some cfg) :
    cfg.title = computeTitle cfg.file_name cfg.y_axis cfg.x_axis ∧
    cfg.title = cfg.file_name ++ " - " ++ cfg.y_axis ++ " vs " ++ cfg.x_axis := by
  rw [buildPlotConfig] at h
  cases hget : dictGet dataframes (selSource (dataframes.map Prod.fst)) with
  | none =>
      rw [hget] at h
      cases h
  | some df =>
      rw [hget] at h
      rw [Option.some.injEq] at h
      subst h
      exact ⟨rfl, rfl⟩

/-- Witness for C7 matching the spec scenario title `a.csv - v1 vs t`. -/
theorem plot_config_title_witness :
    buildPlotConfig headSel headSel secondSel headSel
        [("a.csv", dfT), ("b.xlsx", dfX)] =
      some ⟨"a.csv", "t", "v1", "Line Plot", dfT, "a.csv - v1 vs t"⟩ ∧
    ("a.csv - v1 vs t" = computeTitle "a.csv" "v1" "t" ∧
     "a.csv - v1 vs t" = "a.csv" ++ " - " ++ "v1" ++ " vs " ++ "t") :=
  ⟨by decide,
   plot_config_title headSel headSel secondSel headSel
     [("a.csv", dfT), ("b.xlsx", dfX)]
     ⟨"a.csv", "t", "v1", "Line Plot", dfT, "a.csv - v1 vs t"⟩ (by decide)⟩

/-! ## Claim theorems: Renderer -/

/-- C4: `plot_data` invoked with a mode that is neither `Line Plot` nor
`Scatter Plot` emits exactly one diagnostic naming the unsupported mode and
returns an empty but valid figure — it does not raise, regardless of the
dataset or columns. -/
theorem plot_data_unrecognized_mode (data : DataFrame)
    (x_axis y_axis plot_title plot_type : String)
    (h1 : plot_type ≠ "Line Plot") (h2 : plot_type ≠ "Scatter Plot") :
    plot_data data x_axis y_axis plot_title plot_type =
      .ok (⟨[], emptyLayout⟩, ["Unsupported plot type: " ++ plot_type]) := by
  rw [plot_data, if_neg h1, if_neg h2]

/-- Witness for C4 at the unrecognized mode `Bar Plot`. -/
theorem plot_data_unrecognized_mode_witness :
    (("Bar Plot" : String) ≠ "Line Plot" ∧
     ("Bar Plot" : String) ≠ "Scatter Plot") ∧
    plot_data dfT "t" "v1" "My Title" "Bar Plot" =
      .ok (⟨[], emptyLayout⟩, ["Unsupported plot type: " ++ "Bar Plot"]) :=
  ⟨⟨by decide, by decide⟩,
   plot_data_unrecognized_mode dfT "t" "v1" "My Title" "Bar Plot"
     (by decide) (by decide)⟩

/-- C5: on the same dataset and valid columns, the Line and Scatter figures
carry the same x and y value sequences in source row order and the same
title, axis labels and theme, and differ only in the trace mode (`lines`
versus `markers`). -/
theorem plot_data_line_scatter (data : DataFrame)
    (x_axis y_axis plot_title : String) (xs ys : List Scalar)
    (hx : data.getCol x_axis = some xs) (hy : data.getCol y_axis = some ys) :
    plot_data data x_axis y_axis plot_title "Line Plot" =
      .ok (⟨[⟨xs, ys, "lines"⟩], darkLayout plot_title x_axis y_axis⟩, []) ∧
    plot_data data x_axis y_axis plot_title "Scatter Plot" =
      .ok (⟨[⟨xs, ys, "markers"⟩], darkLayout plot_title x_axis y_axis⟩, []) := by
  constructor
  · rw [plot_data, if_pos rfl, hx, hy]
  · rw [plot_data, if_neg (by decide), if_pos rfl, hx, hy]

/-- Witness for C5 on a concrete dataset: same values and layout, different
trace modes. -/
theorem plot_data_line_scatter_witness :
    (dfT.getCol "t" = some [.num 0, .num 1, .num 2, .num 3, .num 4] ∧
     dfT.getCol "v1" = some [.num 5, .num 6, .num 7, .num 8, .num 9]) ∧
    (plot_data dfT "t" "v1" "My Title" "Line Plot" =
        .ok (⟨[⟨[.num 0, .num 1, .num 2, .num 3, .num 4],
               [.num 5, .num 6, .num 7, .num 8, .num 9], "lines"⟩],
              darkLayout "My Title" "t" "v1"⟩, []) ∧
     plot_data dfT "t" "v1" "My Title" "Scatter Plot" =
        .ok (⟨[⟨[.num 0, .num 1, .num 2, .num 3, .num 4],
               [.num 5, .num 6, .num 7, .num 8, .num 9], "markers"⟩],
              darkLayout "My Title" "t" "v1"⟩, [])) :=
  ⟨⟨by decide, by decide⟩,
   plot_data_line_scatter dfT "t" "v1" "My Title"
     [.num 0, .num 1, .num 2, .num 3, .num 4]
     [.num 5, .num 6, .num 7, .num 8, .num 9] (by decide) (by decide)⟩

/-- C8 fails as stated: the figure returned for the unrecognized mode
`Bar Plot` is the bare `go.Figure()`, returned before `update_layout`, so it
does not carry the dark theme (its background fields are unset, not
`#111111`). -/
theorem plot_data_theme_counterexample :
    plot_data dfT "t" "v1" "My Title" "Bar Plot" =
      .ok (⟨[], emptyLayout⟩, ["Unsupported plot type: Bar Plot"]) ∧
    emptyLayout.plot_bgcolor = none ∧
    emptyLayout.plot_bgcolor ≠ some "#111111" ∧
    emptyLayout ≠ darkLayout "My Title" "t" "v1" := by
  refine ⟨rfl, rfl, by decide, by decide⟩

/-- C8 (amended): every figure returned for a *recognized* mode (`Line
Plot` or `Scatter Plot`) carries the fixed dark theme — dark plot and paper
backgrounds, light font, muted gridlines — identical for both modes and
independent of the configuration; the unrecognized-mode fallback figure is
returned with the default (unstyled) layout. -/
theorem plot_data_dark_theme (data : DataFrame)
    (x_axis y_axis plot_title plot_type : String)
    (hmode : plot_type = "Line Plot" ∨ plot_type = "Scatter Plot")
    (xs ys : List Scalar)
    (hx : data.getCol x_axis = some xs) (hy : data.getCol y_axis = some ys) :
    ∃ tr : Trace,
      plot_data data x_axis y_axis plot_title plot_type =
        .ok (⟨[tr], darkLayout plot_title x_axis y_axis⟩, []) ∧
      (darkLayout plot_title x_axis y_axis).plot_bgcolor = some "#111111" ∧
      (darkLayout plot_title x_axis y_axis).paper_bgcolor = some "#111111" ∧
      (darkLayout plot_title x_axis y_axis).font_color = some "#FFFFFF" ∧
      (darkLayout plot_title x_axis y_axis).xaxis_gridcolor = some "#4a4a4a" ∧
      (darkLayout plot_title x_axis y_axis).xaxis_zerolinecolor = some "#4a4a4a" ∧
      (darkLayout plot_title x_axis y_axis).yaxis_gridcolor = some "#4a4a4a" ∧
      (darkLayout plot_title x_axis y_axis).yaxis_zerolinecolor = some "#4a4a4a" := by
  rcases hmode with h | h
  · subst h
    refine ⟨⟨xs, ys, "lines"⟩, ?_, rfl, rfl, rfl, rfl, rfl, rfl, rfl⟩
    rw [plot_data, if_pos rfl, hx, hy]
  · subst h
    refine ⟨⟨xs, ys, "markers"⟩, ?_, rfl, rfl, rfl, rfl, rfl, rfl, rfl⟩
    rw [plot_data, if_neg (by decide), if_pos rfl, hx, hy]

/-- Witness for the amended C8 at the Scatter mode on a concrete dataset. -/
theorem plot_data_dark_theme_witness :
    (("Scatter Plot" : String) = "Line Plot" ∨
     ("Scatter Plot" : String) = "Scatter Plot") ∧
    (dfT.getCol "t" = some [.num 0, .num 1, .num 2, .num 3, .num 4] ∧
     dfT.getCol "v1" = some [.num 5, .num 6, .num 7, .num 8, .num 9]) ∧
    ∃ tr : Trace,
      plot_data dfT "t" "v1" "My Title" "Scatter Plot" =
        .ok (⟨[tr], darkLayout "My Title" "t" "v1"⟩, []) ∧
      (darkLayout "My Title" "t" "v1").plot_bgcolor = some "#111111" ∧
      (darkLayout "My Title" "t" "v1").paper_bgcolor = some "#111111" ∧
      (darkLayout "My Title" "t" "v1").font_color = some "#FFFFFF" ∧
      (darkLayout "My Title" "t" "v1").xaxis_gridcolor = some "#4a4a4a" ∧
      (darkLayout "My Title" "t" "v1").xaxis_zerolinecolor = some "#4a4a4a" ∧
      (darkLayout "My Title" "t" "v1").yaxis_gridcolor = some "#4a4a4a" ∧
      (darkLayout "My Title" "t" "v1").yaxis_zerolinecolor = some "#4a4a4a" :=
  ⟨Or.inr rfl, ⟨by decide, by decide⟩,
   plot_data_dark_theme dfT "t" "v1" "My Title" "Scatter Plot" (Or.inr rfl)
     [.num 0, .num 1, .num 2, .num 3, .num 4]
     [.num 5, .num 6, .num 7, .num 8, .num 9] (by decide) (by decide)⟩

end Daq

